import Mathlib

set_option maxRecDepth 20000

deriving instance DecidableEq for Except

/- Verification development for the regex-ai command-line tool
   (src/regex_ai.py).  The pure logic of the tool is embedded as
   executable Lean definitions over lists of characters: the common-pattern
   catalog lookup, the prompt builder, the model-response parser, the
   pattern tester and the pattern explainer, together with the control
   flow of RegexAI.generate.  Python string primitives (lower, strip,
   split, startswith, replace, substring containment) are embedded as
   structurally recursive functions on character lists so that every
   definition evaluates by kernel reduction. -/

/-- Boolean test that the first character list is a prefix of the second,
Python semantics of startswith at the character level. -/
def charsPrefixOf : List Char → List Char → Bool
  | [], _ => true
  | _ :: _, [] => false
  | a :: as, b :: bs => a == b && charsPrefixOf as bs

/-- Boolean substring containment on character lists: the needle (second
argument) occurs contiguously inside the haystack (first argument). -/
def charsContains : List Char → List Char → Bool
  | [], n => charsPrefixOf n []
  | c :: t, n => charsPrefixOf n (c :: t) || charsContains t n

/-- Python needle in haystack, the substring containment test. -/
def strContains (haystack needle : String) : Bool :=
  charsContains haystack.data needle.data

/-- Python s.startswith(p). -/
def strStartsWith (s p : String) : Bool :=
  charsPrefixOf p.data s.data

/-- Python s.lower(), character-wise lowering. -/
def strToLower (s : String) : String :=
  String.mk (s.data.map Char.toLower)

/-- Drop leading and trailing whitespace from a character list. -/
def trimChars (cs : List Char) : List Char :=
  ((cs.dropWhile Char.isWhitespace).reverse.dropWhile Char.isWhitespace).reverse

/-- Python s.strip(). -/
def strTrim (s : String) : String :=
  String.mk (trimChars s.data)

/-- Fueled worker for splitting a character list at every occurrence of a
nonempty separator, Python str.split semantics. -/
def splitAux : Nat → List Char → List Char → List Char → List (List Char)
  | 0, _, acc, cs => [acc.reverse ++ cs]
  | f+1, sep, acc, cs =>
    if charsPrefixOf sep cs then acc.reverse :: splitAux f sep [] (cs.drop sep.length)
    else match cs with
      | [] => [acc.reverse]
      | c :: t => splitAux f sep (c :: acc) t

/-- Python s.split(sep) for a nonempty separator. -/
def strSplitOn (s sep : String) : List String :=
  (splitAux (s.data.length + 1) sep.data [] s.data).map String.mk

/-- Fueled worker removing every occurrence of a nonempty pattern from a
character list, scanning left to right, Python str.replace(pat, empty). -/
def removeOccAux : Nat → List Char → List Char → List Char
  | 0, _, cs => cs
  | f+1, pat, cs =>
    if charsPrefixOf pat cs then removeOccAux f pat (cs.drop pat.length)
    else match cs with
      | [] => []
      | c :: t => c :: removeOccAux f pat t

/-- Python s.replace(pat, empty string): delete every occurrence of pat. -/
def removeAll (s pat : String) : String :=
  String.mk (removeOccAux (s.data.length + 1) pat.data s.data)

/-- One catalog entry of check_common_patterns: the dict stored under each
topic key in src/regex_ai.py, lines 70 to 96. -/
structure PatternRecord where
  pattern : String
  explanation : String
  examples : List String
deriving DecidableEq, Repr

/-- Catalog entry for the key email (src/regex_ai.py lines 71 to 75). -/
def emailRecord : PatternRecord :=
  { pattern := "^[a-zA-Z0-9._%+-]+@[a-zA-Z0-9.-]+\\.[a-zA-Z]\x7b2,\x7d$"
    explanation := "Matches standard email addresses with alphanumeric characters, dots, underscores, plus signs and hyphens"
    examples := [("user@example.com"), ("test.email+tag@domain.co.uk"), ("simple@test.org")] }

/-- Catalog entry for the key phone (src/regex_ai.py lines 76 to 80); the
stray space inside the counted repetition is faithful to the source. -/
def phoneRecord : PatternRecord :=
  { pattern := "^\\+?[1-9]\\d\x7b1, 14\x7d$"
    explanation := "Matches international phone numbers with optional plus sign and 2-15 digits"
    examples := [("+1234567890"), ("1234567890"), ("+441234567890")] }

/-- Catalog entry for the key url (src/regex_ai.py lines 81 to 85). -/
def urlRecord : PatternRecord :=
  { pattern := "^https?://[^\\s]+$"
    explanation := "Matches HTTP and HTTPS URLs"
    examples := [("https://example.com"), ("http://test.org/path"), ("https://sub.domain.com/page?query=value")] }

/-- Catalog entry for the key ip (src/regex_ai.py lines 86 to 90). -/
def ipRecord : PatternRecord :=
  { pattern := "^(?:[0-9]\x7b1, 3\x7d\\.)\x7b3\x7d[0-9]\x7b1, 3\x7d$"
    explanation := "Matches IPv4 addresses (basic format validation)"
    examples := [("192.168.1.1"), ("10.0.0.1"), ("172.16.254.1")] }

/-- Catalog entry for the key date (src/regex_ai.py lines 91 to 95). -/
def dateRecord : PatternRecord :=
  { pattern := "^(0[1-9]|1[0-2])/(0[1-9]|[12][0-9]|3[01])/\\d\x7b4\x7d$"
    explanation := "Matches dates in MM/DD/YYYY format"
    examples := [("01/15/2024"), ("12/31/2023"), ("06/08/1990")] }

/-- The common_patterns dict of check_common_patterns, in its insertion
order (Python dicts iterate in insertion order). -/
def common_patterns : List (String × PatternRecord) :=
  [(("email"), emailRecord), (("phone"), phoneRecord), (("url"), urlRecord),
   (("ip"), ipRecord), (("date"), dateRecord)]

/-- The variant phrases built from a key in check_common_patterns line 101:
key address, key addresses, key number, key numbers. -/
def variants (key : String) : List String :=
  [key ++ (" address"), key ++ (" addresses"), key ++ (" number"), key ++ (" numbers")]

/-- The per-key condition of check_common_patterns line 100: the key occurs
in the lowered description, or some variant phrase does. -/
def keyMatches (key desc_lower : String) : Bool :=
  strContains desc_lower key || (variants key).any (fun v => strContains desc_lower v)

/-- The for-loop of check_common_patterns lines 99 to 103: first entry
whose key matches wins, None when the loop falls through. -/
def lookupLoop : List (String × PatternRecord) → String → Option PatternRecord
  | [], _ => none
  | e :: rest, d => if keyMatches e.1 d then some e.2 else lookupLoop rest d

/-- Translation of RegexAI.check_common_patterns (src/regex_ai.py lines
68 to 105): lower-case the description and scan the catalog in order. -/
def check_common_patterns (description : String) : Option PatternRecord :=
  lookupLoop common_patterns (strToLower description)

/-- The catalog keys in the fixed table order named by the specification. -/
def catalogKeys : List String :=
  [("email"), ("phone"), ("url"), ("ip"), ("date")]

/-- Spec-side per-key condition, following the words of the specification:
the key itself, or one of the phrases key address, key addresses, key
number, key numbers, occurs as a substring of the lower-cased description. -/
def specKeyMatch (key d : String) : Bool :=
  strContains d key || strContains d (key ++ (" address")) ||
  strContains d (key ++ (" addresses")) || strContains d (key ++ (" number")) ||
  strContains d (key ++ (" numbers"))

/-- Record stored in the catalog table under a given key. -/
def catalogGet (key : String) : Option PatternRecord :=
  (common_patterns.find? (fun e => e.1 == key)).map Prod.snd

/-- Spec-side lookup, written from the words of the specification: iterate
the catalog keys in the fixed order, return the record of the first key
whose condition holds, none when no key matches. -/
def lookupSpec (description : String) : Option PatternRecord :=
  match catalogKeys.find? (fun k => specKeyMatch k (strToLower description)) with
  | some k => catalogGet k
  | none => none

/-- Keys-only loop from the words of claim C10: first entry whose key
occurs as a plain substring of the lowered description. -/
def lookupLoopKeys : List (String × PatternRecord) → String → Option PatternRecord
  | [], _ => none
  | e :: rest, d => if strContains d e.1 then some e.2 else lookupLoopKeys rest d

/-- The simpler keys-only substring lookup named by claim C10. -/
def keysOnlyLookup (description : String) : Option PatternRecord :=
  lookupLoopKeys common_patterns (strToLower description)

/-- Two successive calls of check_common_patterns with the same argument,
modelling repeated invocation of the lookup. -/
def lookupTwice (d : String) : Option PatternRecord × Option PatternRecord :=
  (check_common_patterns d, check_common_patterns d)

example : check_common_patterns ("telephone") = some phoneRecord := by decide
example : check_common_patterns ("email phone numbers") = some emailRecord := by decide
example : check_common_patterns ("random text") = none := by decide
example : check_common_patterns ("IP addresses") = some ipRecord := by decide

/-- The three literal field prefixes of the model-response format. -/
def pfxPattern : String := ("PATTERN:")

/-- Literal prefix of the explanation line. -/
def pfxExplanation : String := ("EXPLANATION:")

/-- Literal prefix of the examples line. -/
def pfxExamples : String := ("EXAMPLES:")

/-- Result triple of RegexAI._parse_response. -/
structure ParseState where
  pattern : String
  explanation : String
  examples : List String
deriving DecidableEq, Repr

/-- The examples list comprehension of _parse_response line 145: split the
text on the bar character, strip each segment, drop segments that are
empty after stripping. -/
def splitExamples (t : String) : List String :=
  ((strSplitOn t ("|")).map strTrim).filter (fun x => x != (""))

/-- One iteration of the line loop of _parse_response, lines 137 to 145:
strip the line, and on a recognized prefix overwrite the matching field
with the line after deleting every occurrence of the prefix and stripping. -/
def parseLine (st : ParseState) (rawLine : String) : ParseState :=
  let line := strTrim rawLine
  if strStartsWith line pfxPattern then
    { st with pattern := strTrim (removeAll line pfxPattern) }
  else if strStartsWith line pfxExplanation then
    { st with explanation := strTrim (removeAll line pfxExplanation) }
  else if strStartsWith line pfxExamples then
    { st with examples := splitExamples (strTrim (removeAll line pfxExamples)) }
  else st

/-- Translation of RegexAI._parse_response (src/regex_ai.py lines 130 to
147): split the raw response on newlines and fold the line handler over
the lines, starting from empty fields. -/
def parse_response (result : String) : ParseState :=
  (strSplitOn result ("\n")).foldl parseLine (ParseState.mk ("") ("") [])

/-- Last element of a list satisfying a predicate, if any: later lines
take precedence, which phrases last-write-wins directly. -/
def lastMatch (p : String → Bool) : List String → Option String
  | [] => none
  | l :: ls =>
    match lastMatch p ls with
    | some r => some r
    | none => if p l then some l else none

/-- The last line of the response whose stripped form starts with the
given prefix. -/
def fieldLine (pfx : String) (lines : List String) : Option String :=
  lastMatch (fun l => strStartsWith (strTrim l) pfx) lines

/-- Value assigned to the pattern or explanation field from a recognized
line: delete every occurrence of the prefix, then strip. -/
def fieldValue (pfx : String) (l : String) : String :=
  strTrim (removeAll (strTrim l) pfx)

/-- Spec-side pattern field: value of the last PATTERN line, else the
given default. -/
def updPattern (lines : List String) (dflt : String) : String :=
  match fieldLine pfxPattern lines with
  | some l => fieldValue pfxPattern l
  | none => dflt

/-- Spec-side explanation field: value of the last EXPLANATION line, else
the given default. -/
def updExplanation (lines : List String) (dflt : String) : String :=
  match fieldLine pfxExplanation lines with
  | some l => fieldValue pfxExplanation l
  | none => dflt

/-- Spec-side examples field: split value of the last EXAMPLES line, else
the given default. -/
def updExamples (lines : List String) (dflt : List String) : List String :=
  match fieldLine pfxExamples lines with
  | some l => splitExamples (fieldValue pfxExamples l)
  | none => dflt

/-- Spec-side parser, written from the words of the specification as
amended: each field comes from the last line starting with its literal
prefix (the line with every occurrence of the prefix deleted, trimmed),
the examples value split on bars with empty segments dropped, and fields
whose prefix never occurs stay empty. -/
def parseSpec (raw : String) : ParseState :=
  let lines := strSplitOn raw ("\n")
  ParseState.mk (updPattern lines ("")) (updExplanation lines ("")) (updExamples lines [])

example : parse_response ("no recognizable lines") = ParseState.mk ("") ("") [] := by decide
example : parse_response ("PATTERN: ^a$\nEXPLANATION: matches a\nEXAMPLES: a|aa") =
    ParseState.mk ("^a$") ("matches a") [("a"), ("aa")] := by decide
example : (parse_response ("PATTERN: aPATTERN:b")).pattern = ("ab") := by decide
example : parseSpec ("PATTERN: x\nPATTERN: y") = ParseState.mk ("y") ("") [] := by decide

/-- Explanatory line for the caret meta-character. -/
def expCaret : String := ("^ = Start of string")

/-- Explanatory line for the dollar meta-character. -/
def expDollar : String := ("$ = End of string")

/-- Explanatory line for the plus quantifier. -/
def expPlus : String := ("+ = One or more of preceding element")

/-- Explanatory line for the star quantifier. -/
def expStar : String := ("* = Zero or more of preceding element")

/-- Explanatory line for the question-mark quantifier. -/
def expQuest : String := ("? = Zero or one of preceding element")

/-- Explanatory line for a character class. -/
def expClass : String := ("[] = Characters class (match any character inside)")

/-- Explanatory line for the digit escape. -/
def expDigit : String := ("\\d = Any digit (0-9)")

/-- Explanatory line for the word escape. -/
def expWord : String := ("\\w = Any word character (a-z, A-Z, 0-9, _)")

/-- Explanatory line for the whitespace escape. -/
def expSpace : String := ("\\s = Any whitespace character")

/-- Translation of the components list built by RegexAI._explain_pattern
(src/regex_ai.py lines 184 to 202): nine substring checks in source order,
each appending its fixed line when the meta-character occurs in the
pattern text. -/
def explain_components (p : String) : List String :=
  (if strContains p ("^") then [expCaret] else []) ++
  (if strContains p ("$") then [expDollar] else []) ++
  (if strContains p ("+") then [expPlus] else []) ++
  (if strContains p ("*") then [expStar] else []) ++
  (if strContains p ("?") then [expQuest] else []) ++
  (if strContains p ("[") && strContains p ("]") then [expClass] else []) ++
  (if strContains p ("\\d") then [expDigit] else []) ++
  (if strContains p ("\\w") then [expWord] else []) ++
  (if strContains p ("\\s") then [expSpace] else [])

/-- The fixed ordered checklist named by the specification: a containment
condition paired with its fixed explanatory line, in checklist order. -/
def checklist : List ((String → Bool) × String) :=
  [(fun p => strContains p ("^"), expCaret),
   (fun p => strContains p ("$"), expDollar),
   (fun p => strContains p ("+"), expPlus),
   (fun p => strContains p ("*"), expStar),
   (fun p => strContains p ("?"), expQuest),
   (fun p => strContains p ("[") && strContains p ("]"), expClass),
   (fun p => strContains p ("\\d"), expDigit),
   (fun p => strContains p ("\\w"), expWord),
   (fun p => strContains p ("\\s"), expSpace)]

/-- Spec-side explainer, written from the words of the specification: each
checklist entry whose condition holds contributes its fixed line, once per
type, in checklist order. -/
def explainSpec (p : String) : List String :=
  (checklist.filter (fun e => e.1 p)).map Prod.snd

/-- The email reference pattern used by the specification's explainer
example. -/
def emailPattern : String := ("^[a-zA-Z0-9._%+-]+@[a-zA-Z0-9.-]+\\.[a-zA-Z]\x7b2,\x7d$")

example : explain_components emailPattern = [expCaret, expDollar, expPlus, expClass] := by decide

/-- Item of a character class: literal character, character range, or a
class escape such as backslash-d. -/
inductive CItem where
  | ch (c : Char)
  | range (lo hi : Char)
  | dcls (k : Char)
deriving DecidableEq, Repr

/-- Abstract syntax of the modelled regular-expression subset. -/
inductive RExp where
  | emp
  | lit (c : Char)
  | dot
  | caret
  | dollar
  | cls (neg : Bool) (items : List CItem)
  | escCls (k : Char)
  | group (n : Nat) (r : RExp)
  | seq (a b : RExp)
  | alt (a b : RExp)
  | star (a : RExp)
  | plus (a : RExp)
  | opt (a : RExp)
deriving DecidableEq, Repr

/-- Structural size of a regex syntax tree, used to budget matcher fuel. -/
def rsize : RExp → Nat
  | RExp.emp => 1
  | RExp.lit _ => 1
  | RExp.dot => 1
  | RExp.caret => 1
  | RExp.dollar => 1
  | RExp.cls _ _ => 1
  | RExp.escCls _ => 1
  | RExp.group _ r => rsize r + 1
  | RExp.seq a b => rsize a + rsize b + 1
  | RExp.alt a b => rsize a + rsize b + 1
  | RExp.star a => rsize a + 1
  | RExp.plus a => rsize a + 1
  | RExp.opt a => rsize a + 1

/-- Membership of a character in a class escape (d, D, w, W, s, S). -/
def dclsMatch (k : Char) (c : Char) : Bool :=
  if k == 'd' then c.isDigit
  else if k == 'D' then !c.isDigit
  else if k == 'w' then c.isAlphanum || c == '_'
  else if k == 'W' then !(c.isAlphanum || c == '_')
  else if k == 's' then c.isWhitespace
  else if k == 'S' then !c.isWhitespace
  else false

/-- Membership of a character in one class item. -/
def citemMatch (c : Char) : CItem → Bool
  | CItem.ch a => c == a
  | CItem.range lo hi => Nat.ble lo.toNat c.toNat && Nat.ble c.toNat hi.toNat
  | CItem.dcls k => dclsMatch k c

/-- Membership of a character in a possibly negated character class. -/
def clsMatch (neg : Bool) (items : List CItem) (c : Char) : Bool :=
  if neg then !(items.any (citemMatch c)) else items.any (citemMatch c)

/-- Parsing mode of the recursive-descent regex reader: a whole
alternation, one concatenated sequence, or one atom. -/
inductive PMode where
  | levelAlt
  | levelSeq
  | levelAtom
deriving DecidableEq, Repr

/-- Quantifier characters. -/
def isQuant (c : Char) : Bool :=
  c == '*' || c == '+' || c == '?'

/-- Fueled reader of the items of a character class, Python re semantics
for the class body: an immediate closing bracket is a literal, ranges are
written with a dash, escapes keep their class meaning, a missing closing
bracket is a compile error. -/
def parseClassItems : Nat → Bool → List Char → Except String (List CItem × List Char)
  | 0, _, _ => Except.error ("internal fuel exhausted")
  | f+1, first, cs =>
    match cs with
    | [] => Except.error ("unterminated character set")
    | ']' :: rest =>
      if first then
        match parseClassItems f false rest with
        | Except.error e => Except.error e
        | Except.ok (items, rest2) => Except.ok (CItem.ch (']') :: items, rest2)
      else Except.ok ([], rest)
    | '\\' :: c :: rest =>
      if c == 'd' || c == 'D' || c == 'w' || c == 'W' || c == 's' || c == 'S' then
        match parseClassItems f false rest with
        | Except.error e => Except.error e
        | Except.ok (items, rest2) => Except.ok (CItem.dcls c :: items, rest2)
      else
        match parseClassItems f false rest with
        | Except.error e => Except.error e
        | Except.ok (items, rest2) => Except.ok (CItem.ch c :: items, rest2)
    | '\\' :: [] => Except.error ("bad escape (end of pattern)")
    | c :: '-' :: d :: rest =>
      if d == ']' then
        match parseClassItems f false ('-' :: d :: rest) with
        | Except.error e => Except.error e
        | Except.ok (items, rest2) => Except.ok (CItem.ch c :: items, rest2)
      else if Nat.ble d.toNat c.toNat && !(c == d) then Except.error ("bad character range")
      else
        match parseClassItems f false rest with
        | Except.error e => Except.error e
        | Except.ok (items, rest2) => Except.ok (CItem.range c d :: items, rest2)
    | c :: rest =>
      match parseClassItems f false rest with
      | Except.error e => Except.error e
      | Except.ok (items, rest2) => Except.ok (CItem.ch c :: items, rest2)

/-- Modelled from the spec: the compile step of the host regular-expression
engine (Python re), which is not part of src/.  Fueled recursive-descent
reader for the syntax subset the tool relies on: literals, dot, anchors,
character classes, class escapes, capturing and non-capturing groups,
alternation and the three quantifiers.  Returns the syntax tree, the
unconsumed input and the updated capture-group counter, or a compile
error; in particular an unclosed group is the error named by the
specification example. -/
def parseRx : Nat → PMode → List Char → Nat → Except String (RExp × List Char × Nat)
  | 0, _, _, _ => Except.error ("internal fuel exhausted")
  | f+1, PMode.levelAlt, cs, n =>
    (match parseRx f PMode.levelSeq cs n with
     | Except.error e => Except.error e
     | Except.ok (e1, rest, n1) =>
       match rest with
       | '|' :: rest2 =>
         (match parseRx f PMode.levelAlt rest2 n1 with
          | Except.error e => Except.error e
          | Except.ok (e2, rest3, n2) => Except.ok (RExp.alt e1 e2, rest3, n2))
       | _ => Except.ok (e1, rest, n1))
  | f+1, PMode.levelSeq, cs, n =>
    (match cs with
     | [] => Except.ok (RExp.emp, [], n)
     | ')' :: _ => Except.ok (RExp.emp, cs, n)
     | '|' :: _ => Except.ok (RExp.emp, cs, n)
     | c :: _ =>
       if isQuant c then Except.error ("nothing to repeat")
       else
         match parseRx f PMode.levelAtom cs n with
         | Except.error e => Except.error e
         | Except.ok (a, rest, n1) =>
           let pr : RExp × List Char :=
             match rest with
             | q :: rtl =>
               if q == '*' then (RExp.star a, rtl)
               else if q == '+' then (RExp.plus a, rtl)
               else if q == '?' then (RExp.opt a, rtl)
               else (a, rest)
             | [] => (a, rest)
           match parseRx f PMode.levelSeq pr.2 n1 with
           | Except.error e => Except.error e
           | Except.ok (b, rest3, n2) => Except.ok (RExp.seq pr.1 b, rest3, n2))
  | f+1, PMode.levelAtom, cs, n =>
    (match cs with
     | [] => Except.error ("internal empty atom")
     | '(' :: '?' :: ':' :: rest2 =>
       (match parseRx f PMode.levelAlt rest2 n with
        | Except.error e => Except.error e
        | Except.ok (inner, rest3, n1) =>
          match rest3 with
          | ')' :: rest4 => Except.ok (inner, rest4, n1)
          | _ => Except.error ("missing ), unterminated subpattern"))
     | '(' :: rest =>
       (match parseRx f PMode.levelAlt rest (n + 1) with
        | Except.error e => Except.error e
        | Except.ok (inner, rest3, n1) =>
          match rest3 with
          | ')' :: rest4 => Except.ok (RExp.group (n + 1) inner, rest4, n1)
          | _ => Except.error ("missing ), unterminated subpattern"))
     | '[' :: '^' :: rest =>
       (match parseClassItems f true rest with
        | Except.error e => Except.error e
        | Except.ok (items, rest2) => Except.ok (RExp.cls true items, rest2, n))
     | '[' :: rest =>
       (match parseClassItems f true rest with
        | Except.error e => Except.error e
        | Except.ok (items, rest2) => Except.ok (RExp.cls false items, rest2, n))
     | '^' :: rest => Except.ok (RExp.caret, rest, n)
     | '$' :: rest => Except.ok (RExp.dollar, rest, n)
     | '.' :: rest => Except.ok (RExp.dot, rest, n)
     | '\\' :: [] => Except.error ("bad escape (end of pattern)")
     | '\\' :: c :: rest2 =>
       if c == 'd' || c == 'D' || c == 'w' || c == 'W' || c == 's' || c == 'S' then
         Except.ok (RExp.escCls c, rest2, n)
       else if c == 'n' then Except.ok (RExp.lit (Char.ofNat 10), rest2, n)
       else if c == 't' then Except.ok (RExp.lit (Char.ofNat 9), rest2, n)
       else if c == 'r' then Except.ok (RExp.lit (Char.ofNat 13), rest2, n)
       else if c.isAlphanum then Except.error ("bad escape")
       else Except.ok (RExp.lit c, rest2, n)
     | c :: rest => Except.ok (RExp.lit c, rest, n))

/-- Modelled from the spec: re.compile of the host engine on the modelled
subset.  Returns the syntax tree and the number of capture groups, or the
compile error. -/
def re_compile (p : String) : Except String (RExp × Nat) :=
  match parseRx (p.data.length * 4 + 16) PMode.levelAlt p.data 0 with
  | Except.error e => Except.error e
  | Except.ok (r, rest, n) =>
    match rest with
    | [] => Except.ok (r, n)
    | _ => Except.error ("unbalanced parenthesis")

example : re_compile ("(") = Except.error ("missing ), unterminated subpattern") := by decide
example : (re_compile ("^[a-z]+$")).isOk = true := by decide

/-- Capture slots of a match in progress: one entry per capture group. -/
def Caps : Type := List (Option String)

/-- Store a capture for group number n (1-based). -/
def setCap (caps : Caps) (n : Nat) (v : String) : Caps :=
  List.set caps (n - 1) (some v)

/-- Substring of a character list from position i (inclusive) to j
(exclusive), as a string. -/
def extractRange (s : List Char) (i j : Nat) : String :=
  String.mk ((s.drop i).take (j - i))

/-- Modelled from the spec: the backtracking matcher of the host engine on
the modelled subset.  mrun fuel r s i caps lists every end position and
capture assignment of a match of r starting at position i of s, greedily
ordered, pruned by fuel. -/
def mrun : Nat → RExp → List Char → Nat → Caps → List (Nat × Caps)
  | 0, _, _, _, _ => []
  | f+1, r, s, i, caps =>
    match r with
    | RExp.emp => [(i, caps)]
    | RExp.lit c =>
      (match s.get? i with
       | some c2 => if c == c2 then [(i+1, caps)] else []
       | none => [])
    | RExp.dot =>
      (match s.get? i with
       | some c2 => if c2 == Char.ofNat 10 then [] else [(i+1, caps)]
       | none => [])
    | RExp.caret => if i == 0 then [(i, caps)] else []
    | RExp.dollar =>
      if i == s.length || (i + 1 == s.length && s.get? i == some (Char.ofNat 10)) then
        [(i, caps)]
      else []
    | RExp.cls neg items =>
      (match s.get? i with
       | some c2 => if clsMatch neg items c2 then [(i+1, caps)] else []
       | none => [])
    | RExp.escCls k =>
      (match s.get? i with
       | some c2 => if dclsMatch k c2 then [(i+1, caps)] else []
       | none => [])
    | RExp.group n a =>
      (mrun f a s i caps).map (fun p => (p.1, setCap p.2 n (extractRange s i p.1)))
    | RExp.seq a b =>
      (mrun f a s i caps).flatMap (fun p => mrun f b s p.1 p.2)
    | RExp.alt a b => mrun f a s i caps ++ mrun f b s i caps
    | RExp.star a =>
      ((mrun f a s i caps).filter (fun p => i < p.1)).flatMap
        (fun p => mrun f (RExp.star a) s p.1 p.2) ++ [(i, caps)]
    | RExp.plus a =>
      (mrun f a s i caps).flatMap (fun p => mrun f (RExp.star a) s p.1 p.2)
    | RExp.opt a => mrun f a s i caps ++ [(i, caps)]

/-- Match object reported by a successful search: the matched substring
(match.group()) and the capture groups (match.groups(), None for a group
that did not participate). -/
structure MatchObj where
  text : String
  groups : List (Option String)
deriving DecidableEq, Repr

/-- Modelled from the spec: re.search of the host engine.  Try every start
position from the left; at the first position where the compiled pattern
matches, report the greedily preferred match. -/
def execSearch (r : RExp) (ng : Nat) (s : String) : Option MatchObj :=
  let cs := s.data
  let fuel := (rsize r + 4) * (cs.length + 4) + 16
  (List.range (cs.length + 1)).findSome? (fun i =>
    match mrun fuel r cs i (List.replicate ng none) with
    | [] => none
    | p :: _ => some (MatchObj.mk (extractRange cs i p.1) p.2))

/-- Modelled from the spec: compile then search, the combined behavior of
re.search(pattern, test_string) in RegexAI._test_pattern. -/
def re_search (p s : String) : Except String (Option MatchObj) :=
  match re_compile p with
  | Except.error e => Except.error e
  | Except.ok (r, ng) => Except.ok (execSearch r ng s)

/-- A single-quote character as a string, for the quoted prints of the
tester. -/
def quoteCh : String := String.mk [Char.ofNat 39]

/-- Quote a string in single quotes as the Python f-strings do. -/
def squote (s : String) : String := quoteCh ++ s ++ quoteCh

/-- Render one capture group the way Python prints it inside the tuple. -/
def reprGroup : Option String → String
  | some s => squote s
  | none => ("None")

/-- Join strings with comma and space. -/
def joinComma : List String → String
  | [] => ("")
  | [x] => x
  | x :: y :: xs => x ++ (", ") ++ joinComma (y :: xs)

/-- Render the tuple of capture groups. -/
def reprGroups (gs : List (Option String)) : String :=
  ("(") ++ joinComma (gs.map reprGroup) ++ (")")

/-- Translation of RegexAI._test_pattern (src/regex_ai.py lines 163 to
177) as the sequence of printed lines: header, then on a match the found
line, the captured groups when the pattern has any, and the matched text;
on no match the no-match line; on a compile error the caught invalid
pattern report. -/
def test_pattern (pattern test_string : String) : List String :=
  let head := ("\n🧪 Testing: ") ++ squote test_string
  match re_search pattern test_string with
  | Except.error e => [head, ("   ❌ Invalid regex pattern: ") ++ e]
  | Except.ok none => [head, ("   ❌ No match found")]
  | Except.ok (some m) =>
    [head, ("   ✅ Match found!")] ++
    (if m.groups.isEmpty then [] else [("   📋 Captured groups: ") ++ reprGroups m.groups]) ++
    [("   🎯 Matched text: ") ++ squote m.text]

/-- Outcome record of the tester named by the specification: matched flag,
captured groups, matched substring. -/
structure TestOutcome where
  matched : Bool
  groups : List (Option String)
  matchedText : String
deriving DecidableEq, Repr

/-- Spec-side tester, written from the words of the specification: compile
the pattern with the host engine and search the sample; on a match report
matched, substring and groups; on no match report not matched with empty
groups and empty text; on a compile failure surface the error. -/
def testSpec (pattern sample : String) : Except String TestOutcome :=
  match re_compile pattern with
  | Except.error e => Except.error e
  | Except.ok (r, ng) =>
    match execSearch r ng sample with
    | some m => Except.ok (TestOutcome.mk true m.groups m.text)
    | none => Except.ok (TestOutcome.mk false [] (""))

/-- Rendering of a tester outcome into the printed lines of
_test_pattern, used to relate the translation to the spec-side tester. -/
def renderTest (test_string : String) : Except String TestOutcome → List String
  | Except.error e => [("\n🧪 Testing: ") ++ squote test_string, ("   ❌ Invalid regex pattern: ") ++ e]
  | Except.ok o =>
    if o.matched then
      [("\n🧪 Testing: ") ++ squote test_string, ("   ✅ Match found!")] ++
      (if o.groups.isEmpty then [] else [("   📋 Captured groups: ") ++ reprGroups o.groups]) ++
      [("   🎯 Matched text: ") ++ squote o.matchedText]
    else [("\n🧪 Testing: ") ++ squote test_string, ("   ❌ No match found")]

example : testSpec ("^[a-z]+$") ("abc") = Except.ok (TestOutcome.mk true [] ("abc")) := by decide
example : testSpec ("(") ("abc") = Except.error ("missing ), unterminated subpattern") := by decide
example : testSpec ("^[a-z]+$") ("123") = Except.ok (TestOutcome.mk false [] ("")) := by decide
example : testSpec ("(a)(b)?") ("xacd") =
    Except.ok (TestOutcome.mk true [some ("a"), none] ("a")) := by decide

/-- Uncaught Python exception escaping generate and terminating the
process. -/
inductive PyError where
  | attributeError (method : String)
deriving DecidableEq, Repr

/-- Observable step performed by RegexAI.generate. -/
inductive GenAction where
  | displayResult (pattern explanation : String) (examples : List String)
  | foundInCommon
  | printedPrompt (prompt : String)
  | generatingMsg (description : String)
  | tested (pattern test_string : String)
  | explained (pattern : String)
  | generationFailed
  | errorGenerating (msg : String)
deriving DecidableEq, Repr

/-- The methods the RegexAI class actually defines (src/regex_ai.py):
attribute lookup on self succeeds exactly for these names. -/
def regexAIMethods : List String :=
  [("__init__"), ("generate"), ("check_common_patterns"), ("_build_prompt"),
   ("_parse_response"), ("_display_result"), ("_test_pattern"), ("_explain_pattern")]

/-- Python attribute lookup on a RegexAI instance: defined methods only. -/
def getattrOk (name : String) : Bool :=
  regexAIMethods.contains name

/-- Translation of the response handling of RegexAI.generate, lines 52 to
64: strip the completion, parse it, and either display (plus optional
test and explain) or report a generation failure when the parsed pattern
is empty. -/
def handle_response (content : String) (test_string : Option String) (explainFlag : Bool) : List GenAction :=
  let ps := parse_response (strTrim content)
  if ps.pattern == ("") then [GenAction.generationFailed]
  else
    [GenAction.displayResult ps.pattern ps.explanation ps.examples] ++
    (match test_string with
     | some t => [GenAction.tested ps.pattern t]
     | none => []) ++
    (if explainFlag then [GenAction.explained ps.pattern] else [])

/-- Translation of RegexAI._build_prompt (src/regex_ai.py lines 107 to
128): the f-string prompt with the description interpolated twice. -/
def build_prompt (description : String) : String :=
  ("You are a regex expert. Generate a precise, production-ready regular expression for: \"") ++
  description ++
  ("\"\nRequirements:\n- Must be accurate and handle common edge cases\n- Should be efficient (avoid catastrophic backtracking)\n- Use standard regex syntax that works across languages\n- Focus on practical, real-world usage\n\nRespond in this EXACT format:\nPATTERN: [the regex pattern only]\nEXPLANATION: [clear explanation of what it matches]\nEXAMPLES: [3-5 realistic examples separated by |]\n\nCommon reference patterns:\n- Email: ^[a-zA-Z0-9._%+-]+@[a-zA-Z0-9.-]+\\.[a-zA-Z]\x7b2,\x7d$\n- Phone: ^\\+?[1-9]\\d\x7b1,14\x7d$\n- URL: ^https?:\\/\\/[^\\s]+$\n- IPv4: ^(?:[0-9]\x7b1,3\x7d\\.)\x7b3\x7d[0-9]\x7b1,3\x7d$\n- Date (MM/DD/YYYY): ^(0[1-9]|1[0-2])\\/(0[1-9]|[12][0-9]|3[01])\\/\\d\x7b4\x7d$\n\nGenerate for: ") ++
  description

/-- Translation of RegexAI.generate (src/regex_ai.py lines 18 to 66),
with the external model call abstracted as its result (a completion or a
transport error) and Python attribute lookup on self modelled explicitly:
line 20 calls self._check_common_patterns and line 33 calls
self._buil_prompt, neither of which the class defines, so those calls
raise AttributeError outside any try block. -/
def generate (modelResponse : Except String String) (description : String)
    (test_string : Option String) (dry_run explainFlag : Bool) :
    Except PyError (List GenAction) :=
  if !getattrOk (("_check_common_patterns")) then
    Except.error (PyError.attributeError ("_check_common_patterns"))
  else
    match check_common_patterns description, dry_run with
    | some info, false =>
      Except.ok
        ([GenAction.displayResult info.pattern info.explanation info.examples,
          GenAction.foundInCommon] ++
         (match test_string with
          | some t => [GenAction.tested info.pattern t]
          | none => []))
    | _, _ =>
      if !getattrOk (("_buil_prompt")) then
        Except.error (PyError.attributeError ("_buil_prompt"))
      else
        let prompt := build_prompt description
        if dry_run then Except.ok [GenAction.printedPrompt prompt]
        else
          match modelResponse with
          | Except.error e =>
            Except.ok [GenAction.generatingMsg description, GenAction.errorGenerating e]
          | Except.ok raw =>
            Except.ok (GenAction.generatingMsg description :: handle_response raw test_string explainFlag)

example : generate (Except.ok ("x")) ("email") none true false =
    Except.error (PyError.attributeError ("_check_common_patterns")) := by decide
example : handle_response ("no recognizable lines") (some ("abc")) true = [GenAction.generationFailed] := by decide

theorem charsPrefixOf_of_append (a b l : List Char) (h : charsPrefixOf (a ++ b) l = true) :
    charsPrefixOf a l = true := by
  induction a generalizing l with
  | nil => rfl
  | cons x xs ih =>
    cases l with
    | nil => simp [charsPrefixOf] at h
    | cons y ys =>
      simp only [List.cons_append, charsPrefixOf, Bool.and_eq_true] at h ⊢
      exact ⟨h.1, ih ys h.2⟩

theorem charsContains_of_append (hay a b : List Char) (h : charsContains hay (a ++ b) = true) :
    charsContains hay a = true := by
  induction hay with
  | nil =>
    cases a with
    | nil => rfl
    | cons x xs => simp [charsContains, charsPrefixOf] at h
  | cons c t ih =>
    simp only [charsContains, Bool.or_eq_true] at h ⊢
    cases h with
    | inl hp => exact Or.inl (charsPrefixOf_of_append (a) (b) (c :: t) hp)
    | inr hc => exact Or.inr (ih hc)

theorem str_data_append (a b : String) : (a ++ b).data = a.data ++ b.data := by
  cases a
  cases b
  rfl

theorem strContains_of_append (d a b : String) (h : strContains d (a ++ b) = true) :
    strContains d a = true := by
  unfold strContains at h ⊢
  rw [str_data_append] at h
  exact charsContains_of_append d.data a.data b.data h

theorem keyMatches_eq_contains (k d : String) : keyMatches k d = strContains d k := by
  cases hk : strContains d k with
  | true => simp [keyMatches, hk]
  | false =>
    have hv : ∀ v : String, strContains d (k ++ v) = false := by
      intro v
      cases hx : strContains d (k ++ v) with
      | false => rfl
      | true =>
        have hc := strContains_of_append d k v hx
        rw [hc] at hk
        exact Bool.noConfusion hk
    simp [keyMatches, variants, hk, hv]

theorem specKeyMatch_eq_keyMatches (k d : String) : specKeyMatch k d = keyMatches k d := by
  simp [specKeyMatch, keyMatches, variants, List.any_cons, List.any_nil, Bool.or_assoc,
    Bool.or_false]

theorem lookupLoop_eq_keys (L : List (String × PatternRecord)) (d : String) :
    lookupLoop L d = lookupLoopKeys L d := by
  induction L with
  | nil => rfl
  | cons e rest ih => simp [lookupLoop, lookupLoopKeys, keyMatches_eq_contains, ih]

theorem lookupLoopKeys_isSome (L : List (String × PatternRecord)) (d : String) :
    (lookupLoopKeys L d).isSome = L.any (fun e => strContains d e.1) := by
  induction L with
  | nil => rfl
  | cons e rest ih =>
    simp only [lookupLoopKeys, List.any_cons]
    cases hx : strContains d e.1 <;> simp [hx, ih]

theorem catalogGet_email : catalogGet ("email") = some emailRecord := by decide

theorem catalogGet_phone : catalogGet ("phone") = some phoneRecord := by decide

theorem catalogGet_url : catalogGet ("url") = some urlRecord := by decide

theorem catalogGet_ip : catalogGet ("ip") = some ipRecord := by decide

theorem catalogGet_date : catalogGet ("date") = some dateRecord := by decide

/-- Claim C1: for every description string, the lookup lower-cases the
description, iterates the catalog keys in the fixed table order (email,
phone, url, ip, date), and returns the record of the first key such that
the key itself or one of the phrases key address, key addresses, key
number, key numbers occurs as a substring of the lower-cased description;
none when no key matches, first match wins with no further ranking. -/
theorem check_common_patterns_eq_lookupSpec :
    ∀ d : String, check_common_patterns d = lookupSpec d := by
  intro d
  unfold check_common_patterns lookupSpec
  generalize strToLower d = dl
  cases h1 : keyMatches ("email") dl <;>
  cases h2 : keyMatches ("phone") dl <;>
  cases h3 : keyMatches ("url") dl <;>
  cases h4 : keyMatches ("ip") dl <;>
  cases h5 : keyMatches ("date") dl <;>
    simp [common_patterns, catalogKeys, lookupLoop, List.find?, specKeyMatch_eq_keyMatches,
      h1, h2, h3, h4, h5, catalogGet_email, catalogGet_phone, catalogGet_url, catalogGet_ip,
      catalogGet_date]

/-- Claim C10: the variant-phrase checks in the lookup are redundant; the
lookup equals the keys-only substring lookup extensionally, and returns a
record exactly when one of the five keys occurs as a plain substring of
the lower-cased description. -/
theorem check_common_patterns_keys_only :
    ∀ d : String, check_common_patterns d = keysOnlyLookup d ∧
      ((check_common_patterns d).isSome = true ↔
        ∃ k, k ∈ catalogKeys ∧ strContains (strToLower d) k = true) := by
  intro d
  have he : check_common_patterns d = keysOnlyLookup d :=
    lookupLoop_eq_keys common_patterns (strToLower d)
  refine ⟨he, ?_⟩
  rw [he]
  unfold keysOnlyLookup
  rw [lookupLoopKeys_isSome]
  simp [common_patterns, catalogKeys, List.any_cons, List.any_nil]

/-- Claim C9: the lookup is pure; two successive calls with the same
description return identical records, and both are the same function of
the argument alone (the catalog is a constant of the embedding, never
mutated). -/
theorem lookup_idempotent :
    ∀ d : String, (lookupTwice d).1 = (lookupTwice d).2 ∧
      lookupTwice d = (check_common_patterns d, check_common_patterns d) :=
  fun _ => ⟨rfl, rfl⟩

/-- Claim C5 counterexample: the description telephone contains phone as a
substring, so the lookup returns the phone record rather than none; and a
description containing both email and phone number returns the email
record (first match wins), not the phone record. -/
theorem lookup_phone_claim_false :
    check_common_patterns ("telephone") ≠ none ∧
    check_common_patterns ("telephone") = some phoneRecord ∧
    check_common_patterns ("email phone numbers") = some emailRecord ∧
    emailRecord ≠ phoneRecord := by
  exact ⟨by decide, by decide, by decide, by decide⟩

/-- Claim C5 (amended): for every description whose lower-cased text
contains phone number or phone numbers and does not contain email, the
lookup returns the phone record; and the lone description telephone also
returns the phone record, because phone occurs inside telephone. -/
theorem lookup_phone_amended :
    ∀ d : String,
      (strContains (strToLower d) ("phone number") = true ∨
       strContains (strToLower d) ("phone numbers") = true) →
      strContains (strToLower d) ("email") = false →
      check_common_patterns d = some phoneRecord ∧
      check_common_patterns ("telephone") = some phoneRecord := by
  intro d h1 h2
  refine ⟨?_, by decide⟩
  unfold check_common_patterns
  generalize hdl : strToLower d = dl at h1 h2
  have hphone : strContains dl ("phone") = true := by
    cases h1 with
    | inl h =>
      have hx : (("phone") ++ (" number") : String) = ("phone number") := by decide
      exact strContains_of_append dl ("phone") (" number") (by rw [hx]; exact h)
    | inr h =>
      have hx : (("phone") ++ (" numbers") : String) = ("phone numbers") := by decide
      exact strContains_of_append dl ("phone") (" numbers") (by rw [hx]; exact h)
  have hemail : keyMatches ("email") dl = false := by
    rw [keyMatches_eq_contains]
    exact h2
  have hph : keyMatches ("phone") dl = true := by
    rw [keyMatches_eq_contains]
    exact hphone
  simp [common_patterns, lookupLoop, hemail, hph]

theorem lookup_phone_amended_witness :
    (strContains (strToLower ("a phone number")) ("phone number") = true ∨
     strContains (strToLower ("a phone number")) ("phone numbers") = true) ∧
    strContains (strToLower ("a phone number")) ("email") = false ∧
    check_common_patterns ("a phone number") = some phoneRecord :=
  ⟨Or.inl (by decide), by decide,
   (lookup_phone_amended ("a phone number") (Or.inl (by decide)) (by decide)).1⟩

theorem charsPrefixOf_common (p : List Char) : ∀ (q l : List Char),
    charsPrefixOf p l = true → charsPrefixOf q l = true →
    charsPrefixOf p q = true ∨ charsPrefixOf q p = true := by
  induction p with
  | nil => intro q l _ _; exact Or.inl rfl
  | cons a as ih =>
    intro q l hp hq
    cases l with
    | nil => simp [charsPrefixOf] at hp
    | cons c cs =>
      cases q with
      | nil => exact Or.inr rfl
      | cons b bs =>
        simp only [charsPrefixOf, Bool.and_eq_true] at hp hq ⊢
        have hac : a = c := eq_of_beq hp.1
        have hbc : b = c := eq_of_beq hq.1
        rcases ih bs cs hp.2 hq.2 with h | h
        · exact Or.inl ⟨by simp [hac, hbc], h⟩
        · exact Or.inr ⟨by simp [hac, hbc], h⟩

theorem startsWith_excl (t p q : String)
    (hpq : charsPrefixOf p.data q.data = false) (hqp : charsPrefixOf q.data p.data = false)
    (h : strStartsWith t p = true) : strStartsWith t q = false := by
  cases hx : strStartsWith t q with
  | false => rfl
  | true =>
    unfold strStartsWith at h hx
    rcases charsPrefixOf_common p.data q.data t.data h hx with hc | hc
    · rw [hc] at hpq; exact Bool.noConfusion hpq
    · rw [hc] at hqp; exact Bool.noConfusion hqp

theorem fieldLine_cons (pfx l : String) (ls : List String) :
    fieldLine pfx (l :: ls) =
      match fieldLine pfx ls with
      | some r => some r
      | none => if strStartsWith (strTrim l) pfx then some l else none := rfl

theorem foldl_pattern (lines : List String) :
    ∀ st : ParseState, (List.foldl parseLine st lines).pattern = updPattern lines st.pattern := by
  induction lines with
  | nil => intro st; rfl
  | cons l ls ih =>
    intro st
    rw [List.foldl_cons, ih (parseLine st l)]
    cases hp : strStartsWith (strTrim l) pfxPattern with
    | true =>
      have hres : (parseLine st l).pattern = fieldValue pfxPattern l := by
        simp [parseLine, hp, fieldValue]
      rw [hres]
      cases hfp : fieldLine pfxPattern ls with
      | some r => simp [updPattern, fieldLine_cons, hfp]
      | none => simp [updPattern, fieldLine_cons, hfp, hp]
    | false =>
      have hres : (parseLine st l).pattern = st.pattern := by
        cases he : strStartsWith (strTrim l) pfxExplanation <;>
        cases hx2 : strStartsWith (strTrim l) pfxExamples <;>
          simp [parseLine, hp, he, hx2]
      rw [hres]
      cases hfp : fieldLine pfxPattern ls with
      | some r => simp [updPattern, fieldLine_cons, hfp]
      | none => simp [updPattern, fieldLine_cons, hfp, hp]

theorem foldl_explanation (lines : List String) :
    ∀ st : ParseState,
      (List.foldl parseLine st lines).explanation = updExplanation lines st.explanation := by
  induction lines with
  | nil => intro st; rfl
  | cons l ls ih =>
    intro st
    rw [List.foldl_cons, ih (parseLine st l)]
    cases he : strStartsWith (strTrim l) pfxExplanation with
    | true =>
      have hp : strStartsWith (strTrim l) pfxPattern = false :=
        startsWith_excl (strTrim l) pfxExplanation pfxPattern (by decide) (by decide) he
      have hres : (parseLine st l).explanation = fieldValue pfxExplanation l := by
        simp [parseLine, hp, he, fieldValue]
      rw [hres]
      cases hfe : fieldLine pfxExplanation ls with
      | some r => simp [updExplanation, fieldLine_cons, hfe]
      | none => simp [updExplanation, fieldLine_cons, hfe, he]
    | false =>
      have hres : (parseLine st l).explanation = st.explanation := by
        cases hp : strStartsWith (strTrim l) pfxPattern <;>
        cases hx2 : strStartsWith (strTrim l) pfxExamples <;>
          simp [parseLine, hp, he, hx2]
      rw [hres]
      cases hfe : fieldLine pfxExplanation ls with
      | some r => simp [updExplanation, fieldLine_cons, hfe]
      | none => simp [updExplanation, fieldLine_cons, hfe, he]

theorem foldl_examples (lines : List String) :
    ∀ st : ParseState,
      (List.foldl parseLine st lines).examples = updExamples lines st.examples := by
  induction lines with
  | nil => intro st; rfl
  | cons l ls ih =>
    intro st
    rw [List.foldl_cons, ih (parseLine st l)]
    cases hx2 : strStartsWith (strTrim l) pfxExamples with
    | true =>
      have hp : strStartsWith (strTrim l) pfxPattern = false :=
        startsWith_excl (strTrim l) pfxExamples pfxPattern (by decide) (by decide) hx2
      have he : strStartsWith (strTrim l) pfxExplanation = false :=
        startsWith_excl (strTrim l) pfxExamples pfxExplanation (by decide) (by decide) hx2
      have hres : (parseLine st l).examples = splitExamples (fieldValue pfxExamples l) := by
        simp [parseLine, hp, he, hx2, fieldValue]
      rw [hres]
      cases hfx : fieldLine pfxExamples ls with
      | some r => simp [updExamples, fieldLine_cons, hfx]
      | none => simp [updExamples, fieldLine_cons, hfx, hx2]
    | false =>
      have hres : (parseLine st l).examples = st.examples := by
        cases hp : strStartsWith (strTrim l) pfxPattern <;>
        cases he : strStartsWith (strTrim l) pfxExplanation <;>
          simp [parseLine, hp, he, hx2]
      rw [hres]
      cases hfx : fieldLine pfxExamples ls with
      | some r => simp [updExamples, fieldLine_cons, hfx]
      | none => simp [updExamples, fieldLine_cons, hfx, hx2]

theorem parse_fold (lines : List String) (st : ParseState) :
    List.foldl parseLine st lines =
      ParseState.mk (updPattern lines st.pattern) (updExplanation lines st.explanation)
        (updExamples lines st.examples) := by
  have h1 := foldl_pattern lines st
  have h2 := foldl_explanation lines st
  have h3 := foldl_examples lines st
  cases hres : List.foldl parseLine st lines with
  | mk a b c =>
    rw [hres] at h1 h2 h3
    simp only at h1 h2 h3
    rw [← h1, ← h2, ← h3]

/-- Claim C3 counterexample: on a line whose text contains the literal
prefix again, the parser does not assign the remainder of the line; the
source deletes every occurrence of the prefix (str.replace), so the
PATTERN field of the line PATTERN: aPATTERN:b is ab, not aPATTERN:b. -/
theorem parse_response_not_remainder :
    (parse_response ("PATTERN: aPATTERN:b")).pattern = ("ab") ∧
    (parse_response ("PATTERN: aPATTERN:b")).pattern ≠ ("aPATTERN:b") := by
  exact ⟨by decide, by decide⟩

/-- Claim C3 (amended): for every raw response, the parser splits on
newlines, strips each line, and for a line starting with PATTERN:,
EXPLANATION: or EXAMPLES: assigns that line with every occurrence of the
prefix deleted and trimmed (not merely the remainder after the leading
prefix); the EXAMPLES: value is split on bars with segments trimmed and
empty segments dropped; absent fields stay empty, and the last occurrence
of a prefix wins. -/
theorem parse_response_eq_parseSpec : ∀ raw : String, parse_response raw = parseSpec raw := by
  intro raw
  unfold parse_response parseSpec
  exact parse_fold (strSplitOn raw ("\n")) (ParseState.mk ("") ("") [])

/-- Claim C6: whenever the parsed model response has an empty PATTERN
field, the response handling of generate reports the failure message and
performs neither pattern testing nor pattern explanation. -/
theorem handle_response_empty_pattern :
    ∀ (content : String) (t : Option String) (e : Bool),
      (parse_response (strTrim content)).pattern = ("") →
      handle_response content t e = [GenAction.generationFailed] ∧
      (∀ p ts, GenAction.tested p ts ∉ handle_response content t e) ∧
      (∀ p, GenAction.explained p ∉ handle_response content t e) := by
  intro content t e h
  have hh : handle_response content t e = [GenAction.generationFailed] := by
    unfold handle_response
    simp [h]
  refine ⟨hh, ?_, ?_⟩
  · intro p ts
    rw [hh]
    simp
  · intro p
    rw [hh]
    simp

theorem handle_response_empty_pattern_witness :
    (parse_response (strTrim ("no recognizable lines"))).pattern = ("") ∧
    handle_response ("no recognizable lines") (some ("abc")) true = [GenAction.generationFailed] :=
  ⟨by decide,
   (handle_response_empty_pattern ("no recognizable lines") (some ("abc")) true (by decide)).1⟩

/-- Claim C7 (code bug): every invocation of generate, whatever the
description, test string, flags or model outcome, terminates with the
uncaught AttributeError raised at line 20, where self._check_common_patterns
is called although the class only defines check_common_patterns; so the
errors the claim lists are never even reached, and the process dies on an
error other than MissingCredential. -/
theorem generate_always_attribute_error :
    ∀ (resp : Except String String) (d : String) (t : Option String) (dr ef : Bool),
      generate resp d t dr ef =
        Except.error (PyError.attributeError ("_check_common_patterns")) := by
  intro resp d t dr ef
  rfl

/-- Claim C8 (code bug): a dry-run invocation of generate also dies with
the AttributeError of line 20 before any prompt is built or printed (and
line 33 would raise a second AttributeError, self._buil_prompt, even if
the first call were repaired); no invocation returns a printed prompt. -/
theorem generate_dry_run_crash :
    generate (Except.error ("no call")) ("dates in MM/DD/YYYY format") none true false =
      Except.error (PyError.attributeError ("_check_common_patterns")) ∧
    (∀ acts : List GenAction,
      generate (Except.error ("no call")) ("dates in MM/DD/YYYY format") none true false ≠
        Except.ok acts) ∧
    getattrOk ("_buil_prompt") = false := by
  refine ⟨rfl, ?_, by decide⟩
  intro acts h
  rw [show generate (Except.error ("no call")) ("dates in MM/DD/YYYY format") none true false =
      Except.error (PyError.attributeError ("_check_common_patterns")) from rfl] at h
  exact Except.noConfusion h

theorem ite_singleton_append (b : Bool) (x : String) (r : List String) :
    (if b then [x] else []) ++ r = if b then x :: r else r := by
  cases b <;> simp

/-- Claim C4: the explainer checks the fixed ordered checklist of
meta-character literals by plain substring containment, each type present
contributing exactly one fixed line in checklist order; on the email
reference pattern it yields exactly the caret, dollar, plus and class
lines and no digit, word or whitespace line. -/
theorem explain_components_eq_explainSpec :
    (∀ p : String, explain_components p = explainSpec p) ∧
    explain_components emailPattern = [expCaret, expDollar, expPlus, expClass] := by
  refine ⟨?_, by decide⟩
  intro p
  unfold explain_components explainSpec checklist
  simp only [List.filter_cons, List.filter_nil, List.map_cons, List.map_nil,
    apply_ite (List.map (Prod.snd : ((String → Bool) × String) → String)),
    List.append_assoc]
  simp only [ite_singleton_append]

/-- Claim C2: for every pattern and sample, the tester compiles the
pattern and searches (not full-matches) the sample, and its printed lines
are exactly the rendering of the spec-side outcome: matched with the
substring and groups on success (the groups line only when the pattern
has groups), not matched with empty groups and text otherwise, and a
caught invalid-pattern report instead of a crash when compilation fails;
in particular the pattern consisting of one open parenthesis compiles to
the unterminated-subpattern error, and the lowercase-word anchor pattern
on abc matches the whole sample with no groups. -/
theorem test_pattern_follows_spec :
    (∀ p s : String, test_pattern p s = renderTest s (testSpec p s)) ∧
    testSpec ("(") ("abc") = Except.error ("missing ), unterminated subpattern") ∧
    testSpec ("^[a-z]+$") ("abc") = Except.ok (TestOutcome.mk true [] ("abc")) ∧
    testSpec ("^[a-z]+$") ("123") = Except.ok (TestOutcome.mk false [] ("")) := by
  refine ⟨?_, by decide, by decide, by decide⟩
  intro p s
  unfold test_pattern testSpec
  cases hc : re_compile p with
  | error e => simp [re_search, hc, renderTest]
  | ok pr =>
    obtain ⟨r, ng⟩ := pr
    cases hs : execSearch r ng s with
    | none => simp [re_search, hc, hs, renderTest]
    | some m => simp [re_search, hc, hs, renderTest]
